import Mathlib

/-!
Shallow embedding of the BuyBuzz DataHub wallet/ledger core (src/index.js).

Amounts are modelled as exact rationals (the source stores DECIMAL(10,2)
and computes in JS numbers; the interesting arithmetic here is +, -, and
division of a provider amount by 100, all exact on the inputs involved).
The MySQL tables become lists of records; a SQL UPDATE with a WHERE clause
becomes a `List.map` that rewrites every matching row (and is a no-op when
no row matches, exactly as in SQL); `START TRANSACTION … ROLLBACK` becomes
the net effect "either all steps applied, or the original state".
-/

namespace BuyBuzz

/-- Ledger entry kinds: the `type` ENUM of `wallet_transactions`. -/
inductive EntryKind
  | credit
  | debit
  | transfer_in
  | transfer_out
  | purchase
  | refund
deriving DecidableEq, Repr

/-- Entry status: the `status` ENUM of `wallet_transactions`. -/
inductive EntryStatus
  | pending
  | completed
  | failed
  | cancelled
deriving DecidableEq, Repr

/-- Order status: the `status` ENUM of `orders` (the states the buy flow uses). -/
inductive OrderStatus
  | pending_payment
  | processing
  | completed
  | failed
  | refunded
deriving DecidableEq, Repr

/-- A row of `wallet_transactions`. -/
structure LedgerEntry where
  user_id : Nat
  transaction_id : String
  reference : Option String
  kind : EntryKind
  amount : ℚ
  status : EntryStatus
  description : String
deriving DecidableEq, Repr

/-- A row of `wallets`. -/
structure WalletRow where
  user_id : Nat
  balance : ℚ
  level : String
deriving DecidableEq, Repr

/-- A row of `users` (the fields the core reads). -/
structure UserRow where
  id : Nat
  email : String
deriving DecidableEq, Repr

/-- A row of `orders` (the fields the buy flow writes). -/
structure OrderRow where
  order_id : String
  user_id : Nat
  order_type : String
  product_name : String
  network : String
  bundle_size : String
  amount : ℚ
  beneficiary_number : String
  status : OrderStatus
deriving DecidableEq, Repr

/-- A row of `data_bundle_products`. -/
structure ProductRow where
  network : String
  bundle_size : String
  price : ℚ
  active : Bool
deriving DecidableEq, Repr

/-- The database state the core reads and writes. `last_number` is the
single `order_sequence` row. -/
structure DBState where
  users : List UserRow
  wallets : List WalletRow
  entries : List LedgerEntry
  orders : List OrderRow
  products : List ProductRow
  last_number : Nat
deriving DecidableEq, Repr

/-- Semantics of `UPDATE wallets SET balance = f(balance) WHERE user_id = ?`:
rewrites every matching row, no-op when none matches. -/
def adjustWallets (l : List WalletRow) (uid : Nat) (f : ℚ → ℚ) : List WalletRow :=
  l.map (fun w => if w.user_id == uid then { w with balance := f w.balance } else w)

/-- Semantics of `UPDATE wallets SET balance = balance + ? WHERE user_id = ?`. -/
def creditWallet (st : DBState) (uid : Nat) (amt : ℚ) : DBState :=
  { st with wallets := adjustWallets st.wallets uid (fun b => b + amt) }

/-- Semantics of `UPDATE wallets SET balance = balance - ? WHERE user_id = ?`. -/
def debitWallet (st : DBState) (uid : Nat) (amt : ℚ) : DBState :=
  { st with wallets := adjustWallets st.wallets uid (fun b => b - amt) }

/-- Semantics of `SELECT balance FROM wallets WHERE user_id = ?` (first matching row). -/
def walletBal (l : List WalletRow) (uid : Nat) : Option ℚ :=
  (l.find? (fun w => w.user_id == uid)).map (fun w => w.balance)

/-- The balance an account's wallet holds; a missing wallet row reads as 0,
mirroring the `wallets[0] || \x7b balance: 0, ... \x7d` default of the read paths. -/
def balanceOf (st : DBState) (uid : Nat) : ℚ :=
  (walletBal st.wallets uid).getD 0

/-- Credit-direction entry kinds (they add to the balance when completed). -/
def isCreditKind : EntryKind → Bool
  | .credit => true
  | .transfer_in => true
  | .refund => true
  | _ => false

/-- The spec's reconstruction of a balance from the ledger: sum of completed
credit-direction amounts minus sum of completed debit-direction amounts. -/
def reconBalance (st : DBState) (uid : Nat) : ℚ :=
  ((st.entries.filter
      (fun e => e.user_id == uid && e.status == EntryStatus.completed
        && isCreditKind e.kind)).map (fun e => e.amount)).sum
  - ((st.entries.filter
      (fun e => e.user_id == uid && e.status == EntryStatus.completed
        && !isCreditKind e.kind)).map (fun e => e.amount)).sum

/-- The fields of a parsed Paystack `charge.success`-style event that the
webhook handler reads: `event.event`, `event.data.reference`,
`event.data.amount` (provider amount in pesewas/kobo). -/
structure PaystackEvent where
  event : String
  reference : String
  amount : ℚ
deriving DecidableEq, Repr

/-- Outcome of `POST /api/webhook/paystack`. -/
inductive WebhookResp
  | invalidSignature
  | ok
  | serverError
deriving DecidableEq, Repr

/-- Handler `POST /api/webhook/paystack` (src/index.js lines 418-469).
`hmac` abstracts `crypto.createHmac(sha512, secret).update(body)`;
`parse` abstracts `JSON.parse` (`none` = parse throws, caught as a 500).
On `charge.success`, the handler looks for a *pending* entry with the
reference; if found it marks every entry with that reference completed,
overwrites its amount with `amount / 100`, and credits that entry's owner. -/
def paystackWebhook (hmac : String → String → String) (secret : String)
    (parse : String → Option PaystackEvent) (body sig : String)
    (st : DBState) : WebhookResp × DBState :=
  if hmac secret body ≠ sig then (.invalidSignature, st)
  else
    match parse body with
    | none => (.serverError, st)
    | some ev =>
      if ev.event ≠ "charge.success" then (.ok, st)
      else
        match (st.entries.filter
            (fun e => e.reference == some ev.reference
              && e.status == EntryStatus.pending)).head? with
        | none => (.ok, st)
        | some tx =>
          let amountInGHS := ev.amount / 100
          let st1 := { st with entries := st.entries.map (fun e =>
            if e.reference == some ev.reference then
              { e with status := EntryStatus.completed, amount := amountInGHS }
            else e) }
          (.ok, creditWallet st1 tx.user_id amountInGHS)

/-- Outcome of `GET /api/wallet/topup/verify/:reference`. -/
inductive VerifyResp
  | credited
  | notSuccessful
deriving DecidableEq, Repr

/-- Handler `GET /api/wallet/topup/verify/:reference` (src/index.js lines 472-520).
`verifyResult` abstracts the Paystack verify call: `some k` when the
provider reports success status with amount `k` (pesewas), `none`
otherwise (the handler then changes nothing).  On success the handler
marks every entry with this reference and user completed (without any
pending check and without touching the entry amount) and unconditionally
credits the caller's wallet with `k / 100`. -/
def manualVerify (verifyResult : Option ℚ) (reference : String) (uid : Nat)
    (st : DBState) : VerifyResp × DBState :=
  match verifyResult with
  | none => (.notSuccessful, st)
  | some k =>
    let amount := k / 100
    let st1 := { st with entries := st.entries.map (fun e =>
      if e.reference == some reference && e.user_id == uid then
        { e with status := EntryStatus.completed }
      else e) }
    (.credited, creditWallet st1 uid amount)

/-- Outcome of `POST /api/data/buy`. -/
inductive BuyResp
  | invalidNetwork
  | missingFields
  | invalidBundle
  | insufficientBalance
  | serverError
  | purchased (order_id : String) (amount : ℚ)
deriving DecidableEq, Repr

/-- Rendering of an order code from a counter value: `BUZZ-${n}`. -/
def mkOrderId (n : Nat) : String :=
  "BUZZ-" ++ toString n

/-- Handler `POST /api/data/buy` (src/index.js lines 551-661).  Here `txid` abstracts the
`DATA-${Date.now()}-${random}` transaction id.  The order code is computed
from a plain `SELECT last_number` (`st.last_number`), and the counter is
advanced by a separate `UPDATE last_number = last_number + 1` inside the
transaction; a missing wallet row makes `wallets[0].balance` throw, caught
as a 500 with no state change.  The ledger entry is inserted with type
`debit`. -/
def buyData (uid : Nat) (network bundle_size beneficiary txid : String)
    (st : DBState) : BuyResp × DBState :=
  if ¬ (network = "MTN" ∨ network = "Telecel" ∨ network = "AirtelTigo") then
    (.invalidNetwork, st)
  else if bundle_size = "" ∨ beneficiary = "" then (.missingFields, st)
  else
    match st.products.find? (fun p => p.network == network
        && p.bundle_size == bundle_size && p.active) with
    | none => (.invalidBundle, st)
    | some product =>
      match st.wallets.find? (fun w => w.user_id == uid) with
      | none => (.serverError, st)
      | some w =>
        if w.balance < product.price then (.insufficientBalance, st)
        else
          let orderId := mkOrderId (st.last_number + 1)
          let st1 := debitWallet st uid product.price
          let st2 := { st1 with entries := st1.entries ++
            [({ user_id := uid, transaction_id := txid, reference := none,
                kind := EntryKind.debit, amount := product.price,
                status := EntryStatus.completed,
                description := network ++ " " ++ bundle_size ++ " data bundle" } :
               LedgerEntry)] }
          let st3 := { st2 with orders := st2.orders ++
            [({ order_id := orderId, user_id := uid, order_type := "data_bundle",
                product_name := network ++ " " ++ bundle_size, network := network,
                bundle_size := bundle_size, amount := product.price,
                beneficiary_number := beneficiary,
                status := OrderStatus.processing } : OrderRow)] }
          let st4 := { st3 with last_number := st3.last_number + 1 }
          (.purchased orderId product.price, st4)

/-- Outcome of `POST /api/wallet/transfer`. -/
inductive TransferResp
  | invalidInput
  | selfTransfer
  | recipientNotFound
  | serverError
  | insufficient
  | done (new_balance : ℚ)
deriving DecidableEq, Repr

/-- Semantics of the JS note suffix: a colon and the note are appended
only when the note is non-empty (the empty string is falsy in JS). -/
def noteSuffix (note : String) : String :=
  if note = "" then "" else ": " ++ note

/-- Handler `POST /api/wallet/transfer` (src/index.js lines 836-925).
`stepFails i` says whether the i-th statement inside the SQL transaction
throws; any failure triggers `ROLLBACK`, whose net effect is the original
state (and a 500 from the outer catch).  `t1`/`t2` abstract the two
separate `Date.now()` calls building the `TRANSFER-OUT-`/`TRANSFER-IN-`
transaction ids.  The inserts do not set the `reference` column.  A missing
sender wallet row makes `senderWallet[0].balance` throw (500, no change);
a missing *recipient* wallet row makes the credit UPDATE match zero rows,
which is silently a no-op. -/
def transfer (stepFails : Nat → Bool) (uid : Nat)
    (senderEmail recipientEmail : String) (amount : ℚ) (note : String)
    (t1 t2 : Nat) (st : DBState) : TransferResp × DBState :=
  if recipientEmail = "" ∨ amount ≤ 0 then (.invalidInput, st)
  else if recipientEmail = senderEmail then (.selfTransfer, st)
  else
    match st.users.find? (fun u => u.email == recipientEmail) with
    | none => (.recipientNotFound, st)
    | some rcpt =>
      match st.wallets.find? (fun w => w.user_id == uid) with
      | none => (.serverError, st)
      | some sw =>
        if sw.balance < amount then (.insufficient, st)
        else if stepFails 0 ∨ stepFails 1 ∨ stepFails 2 ∨ stepFails 3 then
          (.serverError, st)
        else
          let st1 := debitWallet st uid amount
          let st2 := { st1 with entries := st1.entries ++
            [({ user_id := uid, transaction_id := "TRANSFER-OUT-" ++ toString t1,
                reference := none, kind := EntryKind.transfer_out, amount := amount,
                status := EntryStatus.completed,
                description := "Transfer to " ++ recipientEmail ++ noteSuffix note } :
               LedgerEntry)] }
          let st3 := creditWallet st2 rcpt.id amount
          let st4 := { st3 with entries := st3.entries ++
            [({ user_id := rcpt.id, transaction_id := "TRANSFER-IN-" ++ toString t2,
                reference := none, kind := EntryKind.transfer_in, amount := amount,
                status := EntryStatus.completed,
                description := "Transfer from " ++ senderEmail ++ noteSuffix note } :
               LedgerEntry)] }
          (.done (balanceOf st4 uid), st4)

/-- The wallet object returned to the client by the read paths. -/
structure WalletView where
  balance : ℚ
  level : String
deriving DecidableEq, Repr

/-- Handler `GET /api/wallet` (src/index.js lines 276-294): the response's wallet is
`wallets[0] || \x7b balance: 0, level: Bronze \x7d`. -/
def getWalletView (st : DBState) (uid : Nat) : WalletView :=
  match st.wallets.find? (fun w => w.user_id == uid) with
  | some w => WalletView.mk w.balance w.level
  | none => WalletView.mk 0 ("Bronze")

/-- Handler `GET /api/dashboard` (src/index.js lines 297-357): the dashboard's wallet
is `wallets[0] || \x7b balance: 0, level: Bronze \x7d`. -/
def dashboardWalletView (st : DBState) (uid : Nat) : WalletView :=
  match st.wallets.find? (fun w => w.user_id == uid) with
  | some w => WalletView.mk w.balance w.level
  | none => WalletView.mk 0 ("Bronze")

/-- The two separate database steps the buy flow performs against
`order_sequence`: the plain `SELECT last_number` (src/index.js line 583)
and, later, `UPDATE order_sequence SET last_number = last_number + 1`
(lines 624-626), each attributed to the client performing it. -/
inductive AllocStep
  | read (client : Nat)
  | write (client : Nat)
deriving DecidableEq, Repr

/-- Counter state plus the log of (client, observed value) pairs produced
by the read steps. -/
structure AllocState where
  last_number : Nat
  reads : List (Nat × Nat)
deriving DecidableEq, Repr

/-- One step against the shared counter.  A read observes the current
value (the client will render its order code from it); a write is the
blind `last_number = last_number + 1` UPDATE. -/
def allocStep (s : AllocState) : AllocStep → AllocState
  | .read c => { s with reads := s.reads ++ [(c, s.last_number)] }
  | .write _ => { s with last_number := s.last_number + 1 }

/-- Run an interleaving (schedule) of the clients' allocator steps. -/
def runAlloc (sched : List AllocStep) (s : AllocState) : AllocState :=
  sched.foldl allocStep s

/-- The order code a client computes from its observed counter value:
`BUZZ-${seq[0].last_number + 1}` (src/index.js line 584). -/
def codeOfRead (r : Nat × Nat) : String :=
  mkOrderId (r.2 + 1)

/-- The codes issued to the clients, in read order. -/
def issuedCodes (s : AllocState) : List String :=
  s.reads.map codeOfRead

/-- One invocation of a core mutating operation, carrying the external
collaborator responses (signature function, parsed event, Paystack verify
outcome, failure pattern, clock values) as data. -/
inductive CoreOp
  | webhookOp (hmac : String → String → String) (secret : String)
      (parse : String → Option PaystackEvent) (body sig : String)
  | verifyOp (verifyResult : Option ℚ) (reference : String) (uid : Nat)
  | buyOp (uid : Nat) (network bundle_size beneficiary txid : String)
  | transferOp (stepFails : Nat → Bool) (uid : Nat)
      (senderEmail recipientEmail : String) (amount : ℚ) (note : String)
      (t1 t2 : Nat)

/-- The state after one core operation. -/
def applyOp (st : DBState) : CoreOp → DBState
  | .webhookOp h s p b g => (paystackWebhook h s p b g st).2
  | .verifyOp v r u => (manualVerify v r u st).2
  | .buyOp u n bs bn tx => (buyData u n bs bn tx st).2
  | .transferOp f u se re a nt t1 t2 => (transfer f u se re a nt t1 t2 st).2

/-- The amounts an operation's external inputs inject are non-negative
(provider-reported amounts; the purchase and transfer flows need no such
assumption, their amounts are guarded in the code). -/
def opAmountsNonneg : CoreOp → Prop
  | .webhookOp _ _ parse body _ => ∀ ev, parse body = some ev → 0 ≤ ev.amount
  | .verifyOp v _ _ => ∀ k, v = some k → 0 ≤ k
  | .buyOp _ _ _ _ _ => True
  | .transferOp _ _ _ _ _ _ _ _ => True

/-!
Concrete scenario states used to evaluate the claims on small inputs.
-/

/-- An account (id 1) with a zero-balance wallet and one pending top-up
entry of 20 for provider reference `R1`, as created by
`POST /api/wallet/topup/initialize`. -/
def dblState0 : DBState :=
  { users := [UserRow.mk 1 ("u@x.com")],
    wallets := [WalletRow.mk 1 0 ("Bronze")],
    entries := [LedgerEntry.mk 1 ("PAY-1") (some ("R1")) EntryKind.credit 20
      EntryStatus.pending ("Wallet top-up via Paystack")],
    orders := [], products := [], last_number := 4000 }

/-- A signature function under which the sample webhook delivery is valid. -/
def dblHmac : String → String → String := fun _ _ => "SIG"

/-- Parsing the sample webhook body yields `charge.success` for reference
`R1` with provider amount 2000 pesewas (20 GHS). -/
def dblParse : String → Option PaystackEvent :=
  fun _ => some (PaystackEvent.mk ("charge.success") ("R1") 2000)

/-- The state after the webhook settles the pending `R1` entry. -/
def dblAfterWebhook : DBState :=
  (paystackWebhook dblHmac ("secret") dblParse ("BODY") ("SIG") dblState0).2

/-- The state after a subsequent manual verification of the same reference
(the provider again reports success with amount 2000 pesewas). -/
def dblAfterVerify : DBState :=
  (manualVerify (some 2000) ("R1") 1 dblAfterWebhook).2

/-- Two purchase requests racing on the order counter: both perform their
`SELECT last_number` before either performs its `UPDATE`. -/
def raceSchedule : List AllocStep :=
  [AllocStep.read 1, AllocStep.read 2, AllocStep.write 1, AllocStep.write 2]

/-- The allocator state after the racing schedule, starting from the
initial counter value 4000. -/
def raceFinal : AllocState :=
  runAlloc raceSchedule (AllocState.mk 4000 [])

/-- A sender (id 1, balance 50) and a recipient user (id 2) that has no
wallet row — exactly the shape `initializeDB` seeds for the admin user,
which is inserted into `users` without a matching `wallets` insert. -/
def adminState : DBState :=
  { users := [UserRow.mk 1 ("a@x.com"), UserRow.mk 2 ("admin@buybuzz.com")],
    wallets := [WalletRow.mk 1 50 ("Bronze")],
    entries := [], orders := [], products := [], last_number := 4000 }

/-- The state after transferring 30 from account 1 to the wallet-less
recipient: every step of the transfer succeeds. -/
def adminAfter : DBState :=
  (transfer (fun _ => false) 1 ("a@x.com") ("admin@buybuzz.com") 30 ("") 5 6
    adminState).2

/-- An account (id 1, balance 100) and an active MTN 1GB product priced 10. -/
def purchaseState : DBState :=
  { users := [UserRow.mk 1 ("a@x.com")],
    wallets := [WalletRow.mk 1 100 ("Bronze")],
    entries := [], orders := [],
    products := [ProductRow.mk ("MTN") ("1GB") 10 true], last_number := 4000 }

/-- The buy-flow outcome on `purchaseState`. -/
def purchaseRun : BuyResp × DBState :=
  buyData 1 ("MTN") ("1GB") ("0241234567") ("DATA-1") purchaseState

/-- Like `purchaseState` but the wallet holds only 5, below the price 10. -/
def lowBalState : DBState :=
  { purchaseState with wallets := [WalletRow.mk 1 5 ("Bronze")] }

/-- Accounts X (id 1, balance 30) and Y (id 2, balance 0), both with
wallets. -/
def xferState : DBState :=
  { users := [UserRow.mk 1 ("x@x.com"), UserRow.mk 2 ("y@y.com")],
    wallets := [WalletRow.mk 1 30 ("Bronze"), WalletRow.mk 2 0 ("Bronze")],
    entries := [], orders := [], products := [], last_number := 4000 }

/-- The state after a successful transfer of 30 from X to Y. -/
def xferAfter : DBState :=
  (transfer (fun _ => false) 1 ("x@x.com") ("y@y.com") 30 ("") 7 8 xferState).2

/-- An authenticated account (id 1) for which no wallet row exists. -/
def noWalletState : DBState :=
  { users := [UserRow.mk 1 ("a@x.com")], wallets := [], entries := [],
    orders := [], products := [], last_number := 4000 }

/-!
Helper lemmas about the SQL-update semantics.
-/

/-- Reading the updated account after an UPDATE applies the update to the
stored balance (or to nothing, when no row matches). -/
theorem walletBal_adjust_same (l : List WalletRow) (u : Nat) (f : ℚ → ℚ) :
    walletBal (adjustWallets l u f) u = (walletBal l u).map f := by
  induction l with
  | nil => rfl
  | cons w tl ih =>
    by_cases h : w.user_id = u
    · have h1 : adjustWallets (w :: tl) u f
          = { w with balance := f w.balance } :: adjustWallets tl u f := by
        simp [adjustWallets, h]
      rw [h1, walletBal, walletBal,
        List.find?_cons_of_pos _ (by simpa using h),
        List.find?_cons_of_pos _ (by simpa using h)]
      rfl
    · have h1 : adjustWallets (w :: tl) u f = w :: adjustWallets tl u f := by
        simp [adjustWallets, h]
      rw [h1, walletBal, walletBal,
        List.find?_cons_of_neg _ (by simpa using h),
        List.find?_cons_of_neg _ (by simpa using h)]
      exact ih

/-- Reading any other account is unaffected by the UPDATE. -/
theorem walletBal_adjust_ne (l : List WalletRow) (u v : Nat) (f : ℚ → ℚ)
    (hne : v ≠ u) :
    walletBal (adjustWallets l u f) v = walletBal l v := by
  induction l with
  | nil => rfl
  | cons w tl ih =>
    by_cases h : w.user_id = u
    · have h1 : adjustWallets (w :: tl) u f
          = { w with balance := f w.balance } :: adjustWallets tl u f := by
        simp [adjustWallets, h]
      have hpv : ¬ w.user_id = v := by rw [h]; exact fun hc => hne hc.symm
      rw [h1, walletBal, walletBal,
        List.find?_cons_of_neg _ (by simpa using hpv),
        List.find?_cons_of_neg _ (by simpa using hpv)]
      exact ih
    · have h1 : adjustWallets (w :: tl) u f = w :: adjustWallets tl u f := by
        simp [adjustWallets, h]
      by_cases hv : w.user_id = v
      · rw [h1, walletBal, walletBal,
          List.find?_cons_of_pos _ (by simpa using hv),
          List.find?_cons_of_pos _ (by simpa using hv)]
      · rw [h1, walletBal, walletBal,
          List.find?_cons_of_neg _ (by simpa using hv),
          List.find?_cons_of_neg _ (by simpa using hv)]
        exact ih

/-- Balance of the credited account after `creditWallet`, when its wallet
row exists. -/
theorem balanceOf_credit_same (st : DBState) (u : Nat) (a b : ℚ)
    (h : walletBal st.wallets u = some b) :
    balanceOf (creditWallet st u a) u = b + a := by
  simp [balanceOf, creditWallet, walletBal_adjust_same, h]

/-- Balance of any other account after `creditWallet`. -/
theorem balanceOf_credit_ne (st : DBState) (u v : Nat) (a : ℚ) (hne : v ≠ u) :
    balanceOf (creditWallet st u a) v = balanceOf st v := by
  simp [balanceOf, creditWallet, walletBal_adjust_ne _ _ _ _ hne]

/-- Balance of the debited account after `debitWallet`, when its wallet
row exists. -/
theorem balanceOf_debit_same (st : DBState) (u : Nat) (a b : ℚ)
    (h : walletBal st.wallets u = some b) :
    balanceOf (debitWallet st u a) u = b - a := by
  simp [balanceOf, debitWallet, walletBal_adjust_same, h]

/-- Balance of any other account after `debitWallet`. -/
theorem balanceOf_debit_ne (st : DBState) (u v : Nat) (a : ℚ) (hne : v ≠ u) :
    balanceOf (debitWallet st u a) v = balanceOf st v := by
  simp [balanceOf, debitWallet, walletBal_adjust_ne _ _ _ _ hne]

/-- The `transfer_out` entry the transfer flow inserts for the sender. -/
def outEntry (uid : Nat) (re : String) (amount : ℚ) (note : String)
    (t1 : Nat) : LedgerEntry :=
  { user_id := uid, transaction_id := "TRANSFER-OUT-" ++ toString t1,
    reference := none, kind := EntryKind.transfer_out, amount := amount,
    status := EntryStatus.completed,
    description := "Transfer to " ++ re ++ noteSuffix note }

/-- The `transfer_in` entry the transfer flow inserts for the recipient. -/
def inEntry (rid : Nat) (se : String) (amount : ℚ) (note : String)
    (t2 : Nat) : LedgerEntry :=
  { user_id := rid, transaction_id := "TRANSFER-IN-" ++ toString t2,
    reference := none, kind := EntryKind.transfer_in, amount := amount,
    status := EntryStatus.completed,
    description := "Transfer from " ++ se ++ noteSuffix note }

/-- The state a fully successful transfer commits. -/
def transferApplied (uid : Nat) (se re : String) (amount : ℚ) (note : String)
    (t1 t2 : Nat) (rid : Nat) (st : DBState) : DBState :=
  { st with
    wallets := adjustWallets (adjustWallets st.wallets uid (fun b => b - amount))
      rid (fun b => b + amount),
    entries := st.entries ++ [outEntry uid re amount note t1,
      inEntry rid se amount note t2] }

/-- Characterization of the success branch of `transfer`: when the guards
pass, both lookups succeed, the balance check passes and no transaction
step fails, the committed state is `transferApplied`. -/
theorem transfer_success_spec (stepFails : Nat → Bool) (uid : Nat)
    (se re : String) (amount : ℚ) (note : String) (t1 t2 : Nat)
    (st : DBState) (rcpt : UserRow) (sw : WalletRow)
    (h0 : ¬ (re = "" ∨ amount ≤ 0)) (h1 : ¬ re = se)
    (hr : st.users.find? (fun u => u.email == re) = some rcpt)
    (hsw : st.wallets.find? (fun w => w.user_id == uid) = some sw)
    (hbal : ¬ sw.balance < amount)
    (hf : ∀ i, stepFails i = false) :
    transfer stepFails uid se re amount note t1 t2 st =
      (TransferResp.done
        (balanceOf (transferApplied uid se re amount note t1 t2 rcpt.id st) uid),
       transferApplied uid se re amount note t1 t2 rcpt.id st) := by
  simp only [transfer, if_neg h0, if_neg h1, hr, hsw, if_neg hbal, hf]
  simp [transferApplied, debitWallet, creditWallet, outEntry, inEntry,
    balanceOf, List.append_assoc]

/-- Exhaustive case analysis of `transfer`: every run either returns the
state unchanged (all the rejection branches, including the rollback on a
failed step) or commits exactly `transferApplied` for the recipient the
email lookup found. -/
theorem transfer_cases (stepFails : Nat → Bool) (uid : Nat)
    (se re : String) (amount : ℚ) (note : String) (t1 t2 : Nat)
    (st : DBState) :
    (transfer stepFails uid se re amount note t1 t2 st).2 = st ∨
    ∃ rcpt : UserRow, ∃ sw : WalletRow,
      st.users.find? (fun u => u.email == re) = some rcpt ∧
      st.wallets.find? (fun w => w.user_id == uid) = some sw ∧
      ¬ sw.balance < amount ∧ 0 < amount ∧
      (transfer stepFails uid se re amount note t1 t2 st).2 =
        transferApplied uid se re amount note t1 t2 rcpt.id st := by
  unfold transfer
  split
  · exact Or.inl rfl
  · rename_i hg
    split
    · exact Or.inl rfl
    · split
      · exact Or.inl rfl
      · rename_i rcpt heqr
        split
        · exact Or.inl rfl
        · rename_i sw heqw
          split
          · exact Or.inl rfl
          · rename_i hbal
            split
            · exact Or.inl rfl
            · have hpos : 0 < amount := by
                rcases not_or.mp hg with ⟨-, h2⟩
                exact lt_of_not_le h2
              refine Or.inr ⟨rcpt, sw, heqr, heqw, hbal, hpos, ?_⟩
              simp [transferApplied, debitWallet, creditWallet, outEntry,
                inEntry, List.append_assoc]

/-- The completed ledger entry the buy flow inserts (note: its kind is
`debit`, copied from the literal at src/index.js line 601). -/
def purchaseEntry (uid : Nat) (txid network bundle_size : String)
    (price : ℚ) : LedgerEntry :=
  { user_id := uid, transaction_id := txid, reference := none,
    kind := EntryKind.debit, amount := price,
    status := EntryStatus.completed,
    description := network ++ " " ++ bundle_size ++ " data bundle" }

/-- The order row the buy flow inserts, with the code rendered from `n`. -/
def purchaseOrder (uid : Nat) (network bundle_size beneficiary : String)
    (price : ℚ) (n : Nat) : OrderRow :=
  { order_id := mkOrderId n, user_id := uid, order_type := "data_bundle",
    product_name := network ++ " " ++ bundle_size, network := network,
    bundle_size := bundle_size, amount := price,
    beneficiary_number := beneficiary, status := OrderStatus.processing }

/-- The state a successful purchase commits. -/
def buyApplied (uid : Nat) (network bundle_size beneficiary txid : String)
    (price : ℚ) (st : DBState) : DBState :=
  { st with
    wallets := adjustWallets st.wallets uid (fun b => b - price),
    entries := st.entries ++ [purchaseEntry uid txid network bundle_size price],
    orders := st.orders ++
      [purchaseOrder uid network bundle_size beneficiary price (st.last_number + 1)],
    last_number := st.last_number + 1 }

/-- Characterization of the success branch of `buyData`. -/
theorem buyData_success_spec (uid : Nat) (network bs bn tx : String)
    (st : DBState) (p : ProductRow) (w : WalletRow)
    (hn : network = "MTN" ∨ network = "Telecel" ∨ network = "AirtelTigo")
    (hbs : ¬ bs = "") (hbn : ¬ bn = "")
    (hp : st.products.find? (fun q => q.network == network
      && q.bundle_size == bs && q.active) = some p)
    (hw : st.wallets.find? (fun v => v.user_id == uid) = some w)
    (hge : ¬ w.balance < p.price) :
    buyData uid network bs bn tx st =
      (BuyResp.purchased (mkOrderId (st.last_number + 1)) p.price,
       buyApplied uid network bs bn tx p.price st) := by
  simp only [buyData, if_neg (not_not_intro hn),
    if_neg (show ¬ (bs = "" ∨ bn = "") from fun hc => hc.elim hbs hbn),
    hp, hw, if_neg hge]
  simp [buyApplied, debitWallet, purchaseEntry, purchaseOrder]

/-- Crediting a non-negative amount preserves non-negative balances. -/
theorem balanceOf_credit_nonneg (st : DBState) (v : Nat) (a : ℚ)
    (ha : 0 ≤ a) (h : ∀ u, 0 ≤ balanceOf st u) :
    ∀ u, 0 ≤ balanceOf (creditWallet st v a) u := by
  intro u
  by_cases hu : u = v
  · subst hu
    have hsame := walletBal_adjust_same st.wallets u (fun b => b + a)
    unfold balanceOf creditWallet
    rw [hsame]
    rcases hb : walletBal st.wallets u with _ | b
    · simp
    · have hb0 : 0 ≤ b := by
        have := h u
        unfold balanceOf at this
        rw [hb] at this
        simpa using this
      simpa using add_nonneg hb0 ha
  · rw [balanceOf_credit_ne st v u a hu]
    exact h u

/-- A debit that passed the sufficient-balance check preserves
non-negative balances. -/
theorem balanceOf_debit_nonneg (st : DBState) (v : Nat) (a : ℚ)
    (sw : WalletRow)
    (hsw : st.wallets.find? (fun w => w.user_id == v) = some sw)
    (hge : ¬ sw.balance < a) (h : ∀ u, 0 ≤ balanceOf st u) :
    ∀ u, 0 ≤ balanceOf (debitWallet st v a) u := by
  intro u
  by_cases hu : u = v
  · subst hu
    have hb : walletBal st.wallets u = some sw.balance := by
      unfold walletBal
      rw [hsw]
      rfl
    rw [balanceOf_debit_same st u a sw.balance hb]
    have := not_lt.mp hge
    linarith
  · rw [balanceOf_debit_ne st v u a hu]
    exact h u

/-!
Claim theorems.
-/

/-- Claim C1: settling a payment reference through any combination of the
webhook path and the manual-verification path should credit the wallet
exactly once, every later delivery leaving the balance unchanged.  The
code refutes this: starting from a pending entry of 20 for reference R1,
the webhook settles it (balance 20), but a subsequent manual verification
of the same reference credits the wallet again (balance 40), because the
manual path never checks that the entry is still pending. -/
theorem C1_manual_verify_double_credits :
    balanceOf dblState0 1 = 0 ∧
    balanceOf dblAfterWebhook 1 = 20 ∧
    balanceOf dblAfterVerify 1 = 40 ∧
    balanceOf dblAfterVerify 1 ≠ balanceOf dblAfterWebhook 1 := by
  norm_num +decide [dblState0, dblAfterWebhook, dblAfterVerify, dblHmac,
    dblParse, paystackWebhook, manualVerify, creditWallet, adjustWallets,
    balanceOf, walletBal, List.find?, List.filter]

/-- Claim C2: the balance should always equal the sum of completed
credit-direction entry amounts minus the sum of completed debit-direction
entry amounts, and every core operation should preserve this.  The code
refutes it: the invariant holds initially and after the webhook
settlement, but the manual-verification operation (a core operation, on a
reference that is already completed) credits the balance without changing
any entry, leaving balance 40 against a ledger reconstruction of 20. -/
theorem C2_reconstruction_invariant_violated :
    reconBalance dblState0 1 = balanceOf dblState0 1 ∧
    reconBalance dblAfterWebhook 1 = balanceOf dblAfterWebhook 1 ∧
    reconBalance dblAfterVerify 1 = 20 ∧
    balanceOf dblAfterVerify 1 = 40 ∧
    reconBalance dblAfterVerify 1 ≠ balanceOf dblAfterVerify 1 := by
  norm_num +decide [dblState0, dblAfterWebhook, dblAfterVerify, dblHmac,
    dblParse, paystackWebhook, manualVerify, creditWallet, adjustWallets,
    balanceOf, walletBal, reconBalance, isCreditKind, List.find?,
    List.filter]

/-- Claim C3: the order-code allocator should advance and read the counter
as one atomic increment-and-read, so any N concurrent allocations return N
distinct codes.  The code refutes this: it reads with a plain SELECT and
increments with a separate UPDATE, and in the interleaving where both
clients read before either writes — each client still performing its own
read followed by its own write, as witnessed by the two sublist facts —
both purchases compute the same order code BUZZ-4001. -/
theorem C3_order_code_race_duplicates :
    List.Sublist [AllocStep.read 1, AllocStep.write 1] raceSchedule ∧
    List.Sublist [AllocStep.read 2, AllocStep.write 2] raceSchedule ∧
    issuedCodes raceFinal = [mkOrderId 4001, mkOrderId 4001] ∧
    ¬ (issuedCodes raceFinal).Nodup := by
  decide

/-- Claim C4 counterexample: the claim says every transfer either updates
both wallets (∓amount, entries created) or changes nothing.  Transferring
30 to a user that exists without a wallet row (the exact shape
`initializeDB` seeds for the admin account) debits the sender from 50 to
20, creates both entries, and credits nobody, so neither disjunct holds. -/
theorem C4_walletless_recipient_one_sided :
    balanceOf adminState 1 = 50 ∧ balanceOf adminState 2 = 0 ∧
    balanceOf adminAfter 1 = 20 ∧ balanceOf adminAfter 2 = 0 ∧
    adminAfter.entries.length = 2 ∧
    ¬ ((balanceOf adminAfter 1 = balanceOf adminState 1 - 30 ∧
        balanceOf adminAfter 2 = balanceOf adminState 2 + 30) ∨
       (balanceOf adminAfter 1 = balanceOf adminState 1 ∧
        balanceOf adminAfter 2 = balanceOf adminState 2 ∧
        adminAfter.entries = adminState.entries)) := by
  have hA : balanceOf adminState 1 = 50 := by
    norm_num +decide [adminState, balanceOf, walletBal, List.find?]
  have hB : balanceOf adminState 2 = 0 := by
    norm_num +decide [adminState, balanceOf, walletBal, List.find?]
  have hC : balanceOf adminAfter 1 = 20 := by
    norm_num +decide [adminState, adminAfter, transfer, noteSuffix,
      debitWallet, creditWallet, adjustWallets, balanceOf, walletBal,
      List.find?]
  have hD : balanceOf adminAfter 2 = 0 := by
    norm_num +decide [adminState, adminAfter, transfer, noteSuffix,
      debitWallet, creditWallet, adjustWallets, balanceOf, walletBal,
      List.find?]
  have hE : adminAfter.entries.length = 2 := by
    norm_num +decide [adminState, adminAfter, transfer, noteSuffix,
      debitWallet, creditWallet, adjustWallets, List.find?]
  refine ⟨hA, hB, hC, hD, hE, ?_⟩
  rintro (⟨h1, h2⟩ | ⟨h1, h2, h3⟩)
  · rw [hD, hB] at h2
    norm_num at h2
  · rw [hC, hA] at h1
    norm_num at h1

/-- Claim C4 (amended): for every transfer request whose recipient account
owns a wallet row, either both balances change by exactly ∓amount and the
transfer_out/transfer_in entries are appended, or the state is completely
unchanged — including when any step inside the transaction fails
(`stepFails` arbitrary, rollback restores the original state). -/
theorem C4_transfer_both_or_neither (stepFails : Nat → Bool) (uid : Nat)
    (se re : String) (amount : ℚ) (note : String) (t1 t2 : Nat)
    (st : DBState) (rcpt : UserRow)
    (hr : st.users.find? (fun u => u.email == re) = some rcpt)
    (hne : rcpt.id ≠ uid)
    (hw : (st.wallets.find? (fun w => w.user_id == rcpt.id)).isSome) :
    (transfer stepFails uid se re amount note t1 t2 st).2 = st ∨
    (balanceOf (transfer stepFails uid se re amount note t1 t2 st).2 uid
        = balanceOf st uid - amount ∧
     balanceOf (transfer stepFails uid se re amount note t1 t2 st).2 rcpt.id
        = balanceOf st rcpt.id + amount ∧
     (transfer stepFails uid se re amount note t1 t2 st).2.entries
        = st.entries ++ [outEntry uid re amount note t1,
            inEntry rcpt.id se amount note t2]) := by
  rcases transfer_cases stepFails uid se re amount note t1 t2 st with
    hc | ⟨rcpt', sw, hr', hsw, hbal, hpos, hc⟩
  · exact Or.inl hc
  · have hrr : rcpt' = rcpt := by
      rw [hr'] at hr
      exact Option.some.inj hr
    rw [hrr] at hc
    right
    rw [hc]
    have hbu : walletBal st.wallets uid = some sw.balance := by
      unfold walletBal
      rw [hsw]
      rfl
    rcases Option.isSome_iff_exists.mp hw with ⟨rw0, hrw⟩
    have hbr : walletBal st.wallets rcpt.id = some rw0.balance := by
      unfold walletBal
      rw [hrw]
      rfl
    refine ⟨?_, ?_, rfl⟩
    · show (walletBal (adjustWallets (adjustWallets st.wallets uid
        (fun b => b - amount)) rcpt.id (fun b => b + amount)) uid).getD 0
        = balanceOf st uid - amount
      rw [walletBal_adjust_ne _ _ _ _ (Ne.symm hne), walletBal_adjust_same, hbu]
      unfold balanceOf
      rw [hbu]
      rfl
    · show (walletBal (adjustWallets (adjustWallets st.wallets uid
        (fun b => b - amount)) rcpt.id (fun b => b + amount)) rcpt.id).getD 0
        = balanceOf st rcpt.id + amount
      rw [walletBal_adjust_same, walletBal_adjust_ne _ _ _ _ hne, hbr]
      unfold balanceOf
      rw [hbr]
      rfl

/-- Witness for C4: the amended dichotomy evaluated on the concrete
two-wallet transfer scenario. -/
theorem C4_transfer_both_or_neither_witness :
    (transfer (fun _ => false) 1 ("x@x.com") ("y@y.com") 30 ("") 7 8
      xferState).2 = xferState ∨
    (balanceOf (transfer (fun _ => false) 1 ("x@x.com") ("y@y.com") 30 ("") 7 8
        xferState).2 1 = balanceOf xferState 1 - 30 ∧
     balanceOf (transfer (fun _ => false) 1 ("x@x.com") ("y@y.com") 30 ("") 7 8
        xferState).2 (UserRow.mk 2 ("y@y.com")).id
        = balanceOf xferState (UserRow.mk 2 ("y@y.com")).id + 30 ∧
     (transfer (fun _ => false) 1 ("x@x.com") ("y@y.com") 30 ("") 7 8
        xferState).2.entries
        = xferState.entries ++ [outEntry 1 ("y@y.com") 30 ("") 7,
            inEntry (UserRow.mk 2 ("y@y.com")).id ("x@x.com") 30 ("") 8]) :=
  C4_transfer_both_or_neither (fun _ => false) 1 ("x@x.com") ("y@y.com") 30
    "" 7 8 xferState (UserRow.mk 2 ("y@y.com")) (by decide) (by decide)
    (by decide)

/-- Claim C5: a purchase whose price exceeds the account's current wallet
balance fails with the insufficient-balance error and changes nothing —
the returned state is exactly the input state, so the balance, the ledger,
the orders and the sequence counter are all untouched (the counter is not
even read: the check at src/index.js line 579 returns before line 583). -/
theorem C5_insufficient_purchase_no_change (uid : Nat)
    (network bs bn tx : String) (st : DBState) (p : ProductRow)
    (w : WalletRow)
    (hn : network = "MTN" ∨ network = "Telecel" ∨ network = "AirtelTigo")
    (hbs : ¬ bs = "") (hbn : ¬ bn = "")
    (hp : st.products.find? (fun q => q.network == network
      && q.bundle_size == bs && q.active) = some p)
    (hw : st.wallets.find? (fun v => v.user_id == uid) = some w)
    (hlt : w.balance < p.price) :
    buyData uid network bs bn tx st = (BuyResp.insufficientBalance, st) := by
  simp only [buyData, if_neg (not_not_intro hn),
    if_neg (show ¬ (bs = "" ∨ bn = "") from fun hc => hc.elim hbs hbn),
    hp, hw, if_pos hlt]

/-- Witness for C5: balance 5, price 10. -/
theorem C5_insufficient_purchase_no_change_witness :
    buyData 1 ("MTN") ("1GB") ("0241234567") ("DATA-1") lowBalState
      = (BuyResp.insufficientBalance, lowBalState) :=
  C5_insufficient_purchase_no_change 1 ("MTN") ("1GB") ("0241234567")
    ("DATA-1") lowBalState (ProductRow.mk ("MTN") ("1GB") 10 true)
    (WalletRow.mk 1 5 ("Bronze")) (Or.inl rfl) (by decide) (by decide)
    (by decide) (by decide) (by norm_num)

/-- Claim C6 counterexample: the claim says a successful purchase records
an entry of kind `purchase`; on the concrete successful purchase the single
recorded entry has kind `debit` (the string literal at src/index.js
line 601) and no `purchase`-kind entry exists. -/
theorem C6_purchase_entry_kind_is_debit :
    purchaseRun.1 = BuyResp.purchased (mkOrderId 4001) 10 ∧
    purchaseRun.2.entries.map (fun e => e.kind) = [EntryKind.debit] ∧
    purchaseRun.2.entries.filter (fun e => e.kind == EntryKind.purchase)
      = [] ∧
    EntryKind.debit ≠ EntryKind.purchase := by
  refine ⟨?_, ?_, ?_, by decide⟩ <;>
    norm_num +decide [purchaseRun, purchaseState, buyData, debitWallet,
      adjustWallets, mkOrderId, purchaseEntry, List.find?, List.filter]

/-- Claim C6 (amended): every successful purchase records exactly one
completed ledger entry of kind `debit` (not `purchase`) for the debited
amount, creates exactly one order in `processing` whose code is rendered
from the counter value plus one — strictly greater than any previously
allocated code — reduces the balance by the price, and advances the
counter. -/
theorem C6_purchase_success_effects (uid : Nat) (network bs bn tx : String)
    (st : DBState) (p : ProductRow) (w : WalletRow)
    (hn : network = "MTN" ∨ network = "Telecel" ∨ network = "AirtelTigo")
    (hbs : ¬ bs = "") (hbn : ¬ bn = "")
    (hp : st.products.find? (fun q => q.network == network
      && q.bundle_size == bs && q.active) = some p)
    (hw : st.wallets.find? (fun v => v.user_id == uid) = some w)
    (hge : ¬ w.balance < p.price)
    (hcodes : ∀ o ∈ st.orders, ∃ m, o.order_id = mkOrderId m
      ∧ m ≤ st.last_number) :
    buyData uid network bs bn tx st =
      (BuyResp.purchased (mkOrderId (st.last_number + 1)) p.price,
       buyApplied uid network bs bn tx p.price st) ∧
    balanceOf (buyApplied uid network bs bn tx p.price st) uid
      = balanceOf st uid - p.price ∧
    (buyApplied uid network bs bn tx p.price st).entries
      = st.entries ++ [purchaseEntry uid tx network bs p.price] ∧
    (purchaseEntry uid tx network bs p.price).kind = EntryKind.debit ∧
    (purchaseEntry uid tx network bs p.price).status
      = EntryStatus.completed ∧
    (purchaseEntry uid tx network bs p.price).amount = p.price ∧
    (buyApplied uid network bs bn tx p.price st).orders
      = st.orders ++ [purchaseOrder uid network bs bn p.price
          (st.last_number + 1)] ∧
    (purchaseOrder uid network bs bn p.price (st.last_number + 1)).status
      = OrderStatus.processing ∧
    (buyApplied uid network bs bn tx p.price st).last_number
      = st.last_number + 1 ∧
    (∀ o ∈ st.orders, ∃ m, o.order_id = mkOrderId m
      ∧ m < st.last_number + 1) := by
  refine ⟨buyData_success_spec uid network bs bn tx st p w hn hbs hbn hp hw
    hge, ?_, rfl, rfl, rfl, rfl, rfl, rfl, rfl, ?_⟩
  · have hbu : walletBal st.wallets uid = some w.balance := by
      unfold walletBal
      rw [hw]
      rfl
    show (walletBal (adjustWallets st.wallets uid (fun b => b - p.price))
      uid).getD 0 = balanceOf st uid - p.price
    rw [walletBal_adjust_same, hbu]
    unfold balanceOf
    rw [hbu]
    rfl
  · intro o ho
    rcases hcodes o ho with ⟨m, hm1, hm2⟩
    exact ⟨m, hm1, Nat.lt_succ_of_le hm2⟩

/-- Witness for C6: the concrete successful purchase, via the theorem. -/
theorem C6_purchase_success_effects_witness :
    buyData 1 ("MTN") ("1GB") ("0241234567") ("DATA-1") purchaseState
      = (BuyResp.purchased (mkOrderId (purchaseState.last_number + 1))
          (ProductRow.mk ("MTN") ("1GB") 10 true).price,
         buyApplied 1 ("MTN") ("1GB") ("0241234567") ("DATA-1")
           (ProductRow.mk ("MTN") ("1GB") 10 true).price purchaseState) :=
  (C6_purchase_success_effects 1 ("MTN") ("1GB") ("0241234567") ("DATA-1")
    purchaseState (ProductRow.mk ("MTN") ("1GB") 10 true)
    (WalletRow.mk 1 100 ("Bronze")) (Or.inl rfl) (by decide) (by decide)
    (by decide) (by decide) (by norm_num)
    (fun o ho => absurd ho (List.not_mem_nil o))).1

/-- Claim C7 counterexample: the claim says the two entries of a transfer
are linked by a shared correlation reference; on the concrete successful
transfer both created entries have an empty `reference` field (the inserts
at src/index.js lines 872-882 and 891-901 never set the column), so no
correlation reference exists at all. -/
theorem C7_entries_lack_correlation_reference :
    xferAfter.entries.map (fun e => e.kind)
      = [EntryKind.transfer_out, EntryKind.transfer_in] ∧
    xferAfter.entries.length = 2 ∧
    ((xferAfter.entries.get? 0).bind (fun e => e.reference)) = none ∧
    ((xferAfter.entries.get? 1).bind (fun e => e.reference)) = none := by
  norm_num +decide [xferState, xferAfter, transfer, noteSuffix, debitWallet,
    creditWallet, adjustWallets, outEntry, inEntry, List.find?]

/-- Claim C7 (amended): every successful transfer creates exactly two new
ledger entries — a completed `transfer_out` on the sender and a completed
`transfer_in` on the recipient, each for the transferred amount — but the
two entries carry no shared correlation reference: both `reference` fields
are empty (their transaction ids embed two independent clock readings). -/
theorem C7_transfer_two_entries_no_shared_reference (stepFails : Nat → Bool)
    (uid : Nat) (se re : String) (amount : ℚ) (note : String) (t1 t2 : Nat)
    (st : DBState) (rcpt : UserRow) (sw : WalletRow)
    (h0 : ¬ (re = "" ∨ amount ≤ 0)) (h1 : ¬ re = se)
    (hr : st.users.find? (fun u => u.email == re) = some rcpt)
    (hsw : st.wallets.find? (fun w => w.user_id == uid) = some sw)
    (hbal : ¬ sw.balance < amount)
    (hf : ∀ i, stepFails i = false) :
    (transfer stepFails uid se re amount note t1 t2 st).2.entries
      = st.entries ++ [outEntry uid re amount note t1,
          inEntry rcpt.id se amount note t2] ∧
    (outEntry uid re amount note t1).kind = EntryKind.transfer_out ∧
    (outEntry uid re amount note t1).user_id = uid ∧
    (outEntry uid re amount note t1).amount = amount ∧
    (outEntry uid re amount note t1).status = EntryStatus.completed ∧
    (inEntry rcpt.id se amount note t2).kind = EntryKind.transfer_in ∧
    (inEntry rcpt.id se amount note t2).user_id = rcpt.id ∧
    (inEntry rcpt.id se amount note t2).amount = amount ∧
    (inEntry rcpt.id se amount note t2).status = EntryStatus.completed ∧
    (outEntry uid re amount note t1).reference = none ∧
    (inEntry rcpt.id se amount note t2).reference = none := by
  refine ⟨?_, rfl, rfl, rfl, rfl, rfl, rfl, rfl, rfl, rfl, rfl⟩
  rw [transfer_success_spec stepFails uid se re amount note t1 t2 st rcpt sw
    h0 h1 hr hsw hbal hf]
  rfl

/-- Witness for C7: the concrete successful transfer, via the theorem. -/
theorem C7_transfer_two_entries_no_shared_reference_witness :
    (transfer (fun _ => false) 1 ("x@x.com") ("y@y.com") 30 ("") 7 8
      xferState).2.entries
      = xferState.entries ++ [outEntry 1 ("y@y.com") 30 ("") 7,
          inEntry (UserRow.mk 2 ("y@y.com")).id ("x@x.com") 30 ("") 8] :=
  (C7_transfer_two_entries_no_shared_reference (fun _ => false) 1
    ("x@x.com") ("y@y.com") 30 ("") 7 8 xferState (UserRow.mk 2 ("y@y.com"))
    (WalletRow.mk 1 30 ("Bronze"))
    (not_or.mpr ⟨by decide, by norm_num⟩) (by decide) (by decide)
    (by decide) (by norm_num) (fun i => rfl)).1

/-- Claim C8: starting from non-negative balances, every core operation —
webhook settlement, manual verification, purchase, transfer — leaves every
account's balance non-negative, the debit-direction paths because they are
guarded by a sufficient-balance check and the credit-direction paths
provided the provider-reported amounts are non-negative. -/
theorem C8_balance_never_negative (st : DBState) (op : CoreOp)
    (h : ∀ u, 0 ≤ balanceOf st u) (hop : opAmountsNonneg op) :
    ∀ u, 0 ≤ balanceOf (applyOp st op) u := by
  cases op with
  | webhookOp hm sec parse body sig =>
    have hop' : ∀ ev, parse body = some ev → 0 ≤ ev.amount := hop
    show ∀ u, 0 ≤ balanceOf (paystackWebhook hm sec parse body sig st).2 u
    unfold paystackWebhook
    by_cases hs : hm sec body ≠ sig
    · rw [if_pos hs]
      exact h
    · rw [if_neg hs]
      rcases hparse : parse body with _ | ev
      · exact h
      · dsimp only
        by_cases hev : ev.event ≠ "charge.success"
        · rw [if_pos hev]
          exact h
        · rw [if_neg hev]
          rcases hfind : (st.entries.filter
              (fun e => e.reference == some ev.reference
                && e.status == EntryStatus.pending)).head? with _ | tx
          · rw [hfind]
            exact h
          · rw [hfind]
            exact balanceOf_credit_nonneg _ _ _
              (div_nonneg (hop' ev hparse) (by norm_num)) h
  | verifyOp v r u0 =>
    cases v with
    | none => exact h
    | some k =>
      exact balanceOf_credit_nonneg _ _ _
        (div_nonneg (hop k rfl) (by norm_num)) h
  | buyOp u0 n bs bn tx =>
    show ∀ u, 0 ≤ balanceOf (buyData u0 n bs bn tx st).2 u
    unfold buyData
    by_cases h1 : ¬ (n = "MTN" ∨ n = "Telecel" ∨ n = "AirtelTigo")
    · rw [if_pos h1]
      exact h
    · rw [if_neg h1]
      by_cases h2 : bs = "" ∨ bn = ""
      · rw [if_pos h2]
        exact h
      · rw [if_neg h2]
        rcases hp : st.products.find? (fun q => q.network == n
            && q.bundle_size == bs && q.active) with _ | p
        · rw [hp]
          exact h
        · rw [hp]
          dsimp only
          rcases hw2 : st.wallets.find? (fun w => w.user_id == u0)
            with _ | w
          · rw [hw2]
            exact h
          · rw [hw2]
            dsimp only
            by_cases h3 : w.balance < p.price
            · rw [if_pos h3]
              exact h
            · rw [if_neg h3]
              exact balanceOf_debit_nonneg st u0 p.price w hw2 h3 h
  | transferOp f u0 se re amount note t1 t2 =>
    show ∀ u, 0 ≤ balanceOf (transfer f u0 se re amount note t1 t2 st).2 u
    rcases transfer_cases f u0 se re amount note t1 t2 st with
      hc | ⟨rcpt, sw, hr, hsw, hbal, hpos, hc⟩
    · rw [hc]
      exact h
    · rw [hc]
      have hd := balanceOf_debit_nonneg st u0 amount sw hsw hbal h
      have hcr := balanceOf_credit_nonneg (debitWallet st u0 amount)
        rcpt.id amount (le_of_lt hpos) hd
      exact fun u => hcr u

/-- All wallet rows non-negative gives all read balances non-negative. -/
theorem nonneg_of_all_rows (st : DBState)
    (hwal : ∀ w ∈ st.wallets, 0 ≤ w.balance) :
    ∀ u, 0 ≤ balanceOf st u := by
  intro u
  unfold balanceOf walletBal
  rcases hf : st.wallets.find? (fun w => w.user_id == u) with _ | w
  · rw [hf]
    simp
  · rw [hf]
    simpa using hwal w (List.mem_of_find?_eq_some hf)

/-- Witness for C8: a manual verification applied to the concrete pending
top-up state keeps all balances non-negative. -/
theorem C8_balance_never_negative_witness :
    0 ≤ balanceOf (applyOp dblState0
      (CoreOp.verifyOp (some 2000) ("R1") 1)) 1 :=
  C8_balance_never_negative dblState0 (CoreOp.verifyOp (some 2000) ("R1") 1)
    (nonneg_of_all_rows dblState0 (by norm_num [dblState0]))
    (fun k hk => by cases hk; norm_num) 1

/-- Claim C9: a webhook request whose signature does not match the HMAC of
the exact raw payload under the shared secret is rejected with the
invalid-signature response and the state is returned completely
unchanged — nothing is parsed, no entry is touched, no balance changes. -/
theorem C9_invalid_signature_no_change (hmac : String → String → String)
    (secret : String) (parse : String → Option PaystackEvent)
    (body sig : String) (st : DBState)
    (h : hmac secret body ≠ sig) :
    paystackWebhook hmac secret parse body sig st
      = (WebhookResp.invalidSignature, st) := by
  unfold paystackWebhook
  rw [if_pos h]

/-- Witness for C9: a concrete mismatching signature. -/
theorem C9_invalid_signature_no_change_witness :
    paystackWebhook (fun _ _ => "AAA") ("secret") (fun _ => none) ("BODY")
      ("BBB") dblState0 = (WebhookResp.invalidSignature, dblState0) :=
  C9_invalid_signature_no_change (fun _ _ => "AAA") ("secret")
    (fun _ => none) ("BODY") ("BBB") dblState0 (by decide)

/-- Claim C10: reading the wallet of an account that has no wallet row
does not fail: both the wallet-read path and the dashboard path return the
default wallet with balance 0 and tier Bronze. -/
theorem C10_missing_wallet_defaults (st : DBState) (uid : Nat)
    (h : st.wallets.find? (fun w => w.user_id == uid) = none) :
    getWalletView st uid = WalletView.mk 0 ("Bronze") ∧
    dashboardWalletView st uid = WalletView.mk 0 ("Bronze") := by
  constructor
  · unfold getWalletView
    rw [h]
  · unfold dashboardWalletView
    rw [h]

/-- Witness for C10: an account with no wallet row at all. -/
theorem C10_missing_wallet_defaults_witness :
    getWalletView noWalletState 1 = WalletView.mk 0 ("Bronze") ∧
    dashboardWalletView noWalletState 1 = WalletView.mk 0 ("Bronze") :=
  C10_missing_wallet_defaults noWalletState 1 rfl

end BuyBuzz
